import Mathlib

/-!
Verification of the Defira connector (`src/gateway/src/connectors/defira/defira.ts`).

This file shallowly embeds the connector's core pipeline — slippage-tolerance
resolution (`getAllowedSlippage`), trade estimation (`estimateSellTrade`,
`estimateBuyTrade`), trade execution with the nonce acquire/commit protocol
(`executeTrade`), the per-(chain, network) instance registry (`getInstance`),
initialization (`init`/`ready`) and token lookup (`getTokenByAddress`) — and
proves or refutes the frozen claims about it.

External collaborators (the uniswap-sdk trade math, the pair fetcher, the
ethers contract-call surface, the Harmony chain client and its nonce manager)
are passed in as function parameters, mirroring the black-box treatment in the
specification.  Their responses are universally quantified in the theorems.

JavaScript numbers that the source only ever multiplies and renders
(`gasPrice`, `gasLimit`, nonces, token amounts) are modelled as `Nat`.
-/

/-! ## String helpers

The source splits strings with JavaScript's `String.prototype.split` with a
single-character separator ("/" in `getAllowedSlippage`).  `splitOnChar`
mirrors that behaviour on the character list of a string. -/

/-- JavaScript `str.split(sep)` for a one-character separator, on `List Char`:
`splitOnChar '/' "a/b".data = ["a".data, "b".data]`. -/
def splitOnChar (c : Char) : List Char → List (List Char)
  | [] => [[]]
  | x :: xs =>
    if x = c then [] :: splitOnChar c xs
    else
      match splitOnChar c xs with
      | [] => [[x]]
      | h :: t => (x :: h) :: t

/-- Parse a decimal digit string into a natural number (the numeric value
that JavaScript / the uniswap-sdk `Percent` constructor would read off it). -/
def parseNatL (l : List Char) : Nat :=
  l.foldl (fun a c => a * 10 + (c.toNat - 48)) 0

/-- Modelled from the spec: `isIntegerString` from `services/validators`
(not under `src/`) — a non-empty string of decimal digits. -/
def isIntegerString (l : List Char) : Bool :=
  !l.isEmpty && l.all Char.isDigit

/-- Modelled from the spec: `isFractionString` from `services/validators`
(not under `src/`) — the override "matches the fraction pattern `\"N/D\"`":
splitting on `'/'` yields exactly two integer strings. -/
def isFractionString (s : String) : Bool :=
  match splitOnChar '/' s.data with
  | [a, b] => isIntegerString a && isIntegerString b
  | _ => false

/-- Modelled from the spec: `percentRegexp` from `services/config-manager-v2`
(not under `src/`) — a percent pattern "capturing two groups (whole and
fractional parts)", `"X%"` style: digits, a dot, digits, then `'%'`.
Returns the two captured groups on a match. -/
def percentMatch (s : String) : Option (List Char × List Char) :=
  match splitOnChar '%' s.data with
  | [body, []] =>
    match splitOnChar '.' body with
    | [w, f] => if isIntegerString w && isIntegerString f then some (w, f) else none
    | _ => none
  | _ => none

/-! ## Errors and the slippage tolerance -/

/-- The error channel of the connector: `InitializationError`, the malformed
`ALLOWED_SLIPPAGE` configuration `Error`, `UniswapishPriceError`, and
propagated contract-call (network/RPC) failures. -/
inductive GatewayError : Type
  | initializationError (message : String) (code : Nat)
  | malformedConfigError (message : String)
  | uniswapishPriceError (message : String)
  | contractError (message : String)
deriving DecidableEq, Repr

/-- The uniswap-sdk `Percent` (external): a fraction held as numerator and
denominator.  The source constructs it from the two captured strings; the
model parses them to naturals. -/
structure UniswapPercent : Type where
  numerator : Nat
  denominator : Nat
deriving DecidableEq, Repr

/-- The rational value of a `UniswapPercent`. -/
def UniswapPercent.toRat (p : UniswapPercent) : ℚ :=
  (p.numerator : ℚ) / (p.denominator : ℚ)

/-- The fallback path of `getAllowedSlippage` (defira.ts lines 176-181):
match the configured default `allowedSlippage` string against the percent
pattern, or throw the fixed malformed-percent error. -/
def defaultAllowedSlippage (config : String) : Except GatewayError UniswapPercent :=
  match percentMatch config with
  | some (a, b) => .ok ⟨parseNatL a, parseNatL b⟩
  | none =>
    .error (.malformedConfigError
      "Encountered a malformed percent string in the config for ALLOWED_SLIPPAGE.")

/-- `Defira.getAllowedSlippage` (defira.ts lines 170-182).  `config` is the
string `DefiraConfig.config.allowedSlippage()` would return; the optional
parameter is the caller's override.  If the override is present (non-null)
and is a fraction string, it is split on `'/'` and the two parts become the
tolerance; otherwise the configured default decides. -/
def getAllowedSlippage (config : String) (allowedSlippageStr? : Option String) :
    Except GatewayError UniswapPercent :=
  match allowedSlippageStr? with
  | some s =>
    if isFractionString s then
      let fractionSplit := splitOnChar '/' s.data
      .ok ⟨parseNatL (fractionSplit.getD 0 []), parseNatL (fractionSplit.getD 1 [])⟩
    else
      defaultAllowedSlippage config
  | none => defaultAllowedSlippage config

/-! ## Helper lemmas about `splitOnChar` -/

theorem splitOnChar_of_not_mem {c : Char} {l : List Char} (h : c ∉ l) :
    splitOnChar c l = [l] := by
  induction l with
  | nil => rfl
  | cons x xs ih =>
    have hx : x ≠ c := fun hxc => h (hxc ▸ List.mem_cons_self x xs)
    have hxs : c ∉ xs := fun hm => h (List.mem_cons_of_mem x hm)
    unfold splitOnChar
    rw [if_neg hx, ih hxs]

theorem splitOnChar_append {c : Char} {a b : List Char} (h : c ∉ a) :
    splitOnChar c (a ++ c :: b) = a :: splitOnChar c b := by
  induction a with
  | nil =>
    show splitOnChar c (c :: b) = [] :: splitOnChar c b
    conv_lhs => rw [splitOnChar]
    rw [if_pos rfl]
  | cons x xs ih =>
    have hx : x ≠ c := fun hxc => h (hxc ▸ List.mem_cons_self x xs)
    have hxs : c ∉ xs := fun hm => h (List.mem_cons_of_mem x hm)
    show splitOnChar c (x :: (xs ++ c :: b)) = (x :: xs) :: splitOnChar c b
    conv_lhs => rw [splitOnChar]
    rw [if_neg hx, ih hxs]

theorem not_slash_of_all_digit {l : List Char} (h : l.all Char.isDigit = true) :
    '/' ∉ l := by
  intro hm
  have : Char.isDigit '/' = true := List.all_eq_true.mp h _ hm
  simp [Char.isDigit] at this

/-! ## Tokens, connector construction, `init`, `getTokenByAddress` -/

/-- The uniswap-sdk `Token` (external): chain id, contract address, decimal
precision, symbol, display name. -/
structure UniswapToken : Type where
  chainId : Nat
  address : String
  decimals : Nat
  symbol : String
  name : String
deriving DecidableEq, Repr

/-- How a JavaScript template literal renders a `UniswapToken` value: the
uniswap-sdk `Token` class defines no custom `toString`, so interpolating a
token object yields the default object rendering, not its address. -/
def tokenToString (_t : UniswapToken) : String :=
  "[object Object]"

/-- One entry of the chain client's `storedTokenList`. -/
structure TokenInfo : Type where
  address : String
  decimals : Nat
  symbol : String
  name : String
deriving DecidableEq, Repr

/-- The slice of `DefiraConfig.config` the constructor reads: `ttl()`,
`gasLimit()`, `allowedSlippage()` and the per-network `routerAddress`. -/
structure DefiraConfig : Type where
  ttl : Nat
  gasLimit : Nat
  allowedSlippage : String
  routerAddress : String → String

/-- The mutable fields of a `Defira` connector instance (defira.ts lines
57-67): the chain name, resolved router address, lazily computed factory
address, gas limit, ttl, chain id, the token list keyed by address, and the
`_ready` flag.  The token list is an association list where the most recent
write is at the head, mirroring JavaScript object assignment. -/
structure DefiraState : Type where
  chain : String
  router : String
  factoryAddress : Option String
  gasLimit : Nat
  ttl : Nat
  chainId : Nat
  tokenList : List (String × UniswapToken)
  ready : Bool
deriving DecidableEq, Repr

/-- The private `Defira` constructor (defira.ts lines 69-79): stores the
chain name, reads ttl / gas limit / router address from the configuration,
takes the chain id from the Harmony client, and starts with no factory
address, an empty token list, and `_ready = false`. -/
def Defira.construct (chain network : String) (config : DefiraConfig)
    (harmonyChainId : Nat) : DefiraState :=
  { chain := chain
    router := config.routerAddress network
    factoryAddress := none
    gasLimit := config.gasLimit
    ttl := config.ttl
    chainId := harmonyChainId
    tokenList := []
    ready := false }

/-- Modelled from the spec: `SERVICE_UNITIALIZED_ERROR_CODE` from
`services/error-handler` (not under `src/`) — the fixed "service
unitialized" error code; its concrete value is immaterial here. -/
def SERVICE_UNITIALIZED_ERROR_CODE : Nat := 1001

/-- Modelled from the spec: `SERVICE_UNITIALIZED_ERROR_MESSAGE` from
`services/error-handler` (not under `src/`) — the fixed message built from
the service name; its concrete text is immaterial here. -/
def SERVICE_UNITIALIZED_ERROR_MESSAGE (service : String) : String :=
  service ++ " service is unitialized"

/-- `Defira.init` (defira.ts lines 102-118).  `harmonyReady` is what
`this.harmony.ready()` returns and `storedTokenList` is the chain client's
token list.  When the instance's chain is `"harmony"` and the client is not
ready, throw `InitializationError`; otherwise map every stored token into a
`UniswapToken` keyed by address and set `_ready`. -/
def Defira.init (harmonyReady : Bool) (storedTokenList : List TokenInfo)
    (s : DefiraState) : Except GatewayError DefiraState :=
  if s.chain = "harmony" && !harmonyReady then
    .error (.initializationError (SERVICE_UNITIALIZED_ERROR_MESSAGE "HMY")
      SERVICE_UNITIALIZED_ERROR_CODE)
  else
    .ok { s with
          tokenList := storedTokenList.foldl
            (fun acc t =>
              (t.address, UniswapToken.mk s.chainId t.address t.decimals t.symbol t.name)
                :: acc)
            s.tokenList
          ready := true }

/-- `Defira.ready` (defira.ts lines 120-122). -/
def Defira.ready (s : DefiraState) : Bool :=
  s.ready

/-- `Defira.getTokenByAddress` (defira.ts lines 98-100): a plain indexed read
of the token-list object; a missing key yields JavaScript `undefined`,
modelled as `none`. -/
def getTokenByAddress (s : DefiraState) (address : String) : Option UniswapToken :=
  s.tokenList.lookup address

/-! ## Trade estimation -/

/-- The uniswap-sdk `Pair` (external): the fetched liquidity-pool state for
the two tokens.  Its contents are only ever passed through to the trade-math
collaborator. -/
structure UniswapPair : Type where
  token0 : UniswapToken
  token1 : UniswapToken
  reserve0 : Nat
  reserve1 : Nat
deriving DecidableEq, Repr

/-- The uniswap-sdk `TokenAmount` (external): a token with an amount in its
smallest unit.  The source builds it from `amount.toString()`. -/
structure UniswapTokenAmount : Type where
  token : UniswapToken
  amount : Nat
deriving DecidableEq, Repr

/-- The uniswap-sdk `Trade` (external, black box): the connector only reads
`executionPrice` (for logging), `minimumAmountOut` and `maximumAmountIn`,
so those accessors are the model. -/
structure UniswapTrade : Type where
  executionPrice : ℚ
  minimumAmountOut : UniswapPercent → Nat
  maximumAmountIn : UniswapPercent → Nat

/-- The `ExpectedTrade` result of both estimate methods: the chosen trade and
the slippage-adjusted expected amount. -/
structure ExpectedTrade : Type where
  trade : UniswapTrade
  expectedAmount : Nat

/-- `Defira.estimateSellTrade` (defira.ts lines 194-234).  `fetchPairData`
and `bestTradeExactIn` are the external pair fetcher and trade-math search
(`bestTradeExactIn pairs amountIn tokenOut maxHops`).  The pair is fetched
for `(quoteToken, baseToken)`, the best exact-in trades are searched over
that single pair with `maxHops = 1`; an empty result throws the
`UniswapishPriceError` built by interpolating the two token objects;
otherwise the expected amount is the first trade's `minimumAmountOut` under
the resolved slippage. -/
def estimateSellTrade
    (fetchPairData : UniswapToken → UniswapToken → UniswapPair)
    (bestTradeExactIn :
      List UniswapPair → UniswapTokenAmount → UniswapToken → Nat → List UniswapTrade)
    (config : String) (baseToken quoteToken : UniswapToken) (amount : Nat)
    (allowedSlippage? : Option String) : Except GatewayError ExpectedTrade :=
  let nativeTokenAmount : UniswapTokenAmount := ⟨baseToken, amount⟩
  let pair : UniswapPair := fetchPairData quoteToken baseToken
  let trades : List UniswapTrade := bestTradeExactIn [pair] nativeTokenAmount quoteToken 1
  match trades with
  | [] =>
    .error (.uniswapishPriceError
      ("priceSwapIn: no trade pair found for " ++ tokenToString baseToken
        ++ " to " ++ tokenToString quoteToken ++ "."))
  | t :: _ => do
    let slippage ← getAllowedSlippage config allowedSlippage?
    pure ⟨t, t.minimumAmountOut slippage⟩

/-- `Defira.estimateBuyTrade` (defira.ts lines 246-285).  Symmetric to the
sell side: the pair is fetched for `(quoteToken, baseToken)`, the best
exact-out trades are searched (`bestTradeExactOut pairs tokenIn amountOut
maxHops`) with `maxHops = 1`; an empty result throws the
`UniswapishPriceError` naming the two token addresses; otherwise the
expected amount is the first trade's `maximumAmountIn` under the resolved
slippage. -/
def estimateBuyTrade
    (fetchPairData : UniswapToken → UniswapToken → UniswapPair)
    (bestTradeExactOut :
      List UniswapPair → UniswapToken → UniswapTokenAmount → Nat → List UniswapTrade)
    (config : String) (quoteToken baseToken : UniswapToken) (amount : Nat)
    (allowedSlippage? : Option String) : Except GatewayError ExpectedTrade :=
  let nativeTokenAmount : UniswapTokenAmount := ⟨baseToken, amount⟩
  let pair : UniswapPair := fetchPairData quoteToken baseToken
  let trades : List UniswapTrade := bestTradeExactOut [pair] quoteToken nativeTokenAmount 1
  match trades with
  | [] =>
    .error (.uniswapishPriceError
      ("priceSwapOut: no trade pair found for " ++ quoteToken.address
        ++ " to " ++ baseToken.address ++ "."))
  | t :: _ => do
    let slippage ← getAllowedSlippage config allowedSlippage?
    pure ⟨t, t.maximumAmountIn slippage⟩

/-! ## Trade execution -/

/-- The transaction-options object passed as the last argument of the
contract call (defira.ts lines 326-339): exactly one of the two fee
strategies fills its fields.  `gasPrice` and `gasLimit` are the strings
produced by `toFixed(0)`; the fee-per-gas fields are passed through as
given. -/
structure TxOverrides : Type where
  gasPrice : Option String
  gasLimit : String
  value : String
  nonce : Nat
  maxFeePerGas : Option Nat
  maxPriorityFeePerGas : Option Nat
deriving DecidableEq, Repr

/-- The fee-strategy branch of `executeTrade` (defira.ts lines 325-340):
if either fee-per-gas argument is defined, build EIP-1559 options carrying
both fee fields and no `gasPrice`; otherwise build legacy options whose
`gasPrice` is `(gasPrice * 1e9).toFixed(0)` and no fee fields. -/
def buildTxOverrides (gasPrice gasLimit : Nat) (value : String) (nonce : Nat)
    (maxFeePerGas? maxPriorityFeePerGas? : Option Nat) : TxOverrides :=
  if maxFeePerGas?.isSome || maxPriorityFeePerGas?.isSome then
    { gasPrice := none
      gasLimit := toString gasLimit
      value := value
      nonce := nonce
      maxFeePerGas := maxFeePerGas?
      maxPriorityFeePerGas := maxPriorityFeePerGas? }
  else
    { gasPrice := some (toString (gasPrice * 1000000000))
      gasLimit := toString gasLimit
      value := value
      nonce := nonce
      maxFeePerGas := none
      maxPriorityFeePerGas := none }

/-- The `SwapParameters` returned by the external
`UniswapRouter.swapCallParameters`: method name, positional arguments, and
the native-currency value to attach. -/
structure SwapParameters : Type where
  methodName : String
  args : List String
  value : String
deriving DecidableEq, Repr

/-- The options the connector passes to `swapCallParameters` (defira.ts
lines 314-318): ttl, the wallet address as recipient, and the resolved
slippage tolerance. -/
structure TradeOptions : Type where
  ttl : Nat
  recipient : String
  allowedSlippage : UniswapPercent
deriving DecidableEq, Repr

/-- The dynamic contract invocation `contract[methodName](...args, opts)`
on the router contract built from `(defiraRouter, abi, wallet)`
(defira.ts lines 320, 326, 334). -/
structure ContractCall : Type where
  router : String
  abi : String
  methodName : String
  args : List String
  opts : TxOverrides
deriving DecidableEq, Repr

/-- The observable interactions of one `executeTrade` call with the nonce
manager and the contract surface, in program order. -/
inductive Effect : Type
  | getNonce (address : String)
  | submitCall (call : ContractCall)
  | commitNonce (address : String) (nonce : Nat)
deriving DecidableEq, Repr

/-- The contract call `executeTrade` submits, given the resolved slippage
and nonce: `swapCallParameters` (defira.ts line 314) supplies the method
name, arguments and attached value; the options come from the fee-strategy
branch. -/
def plannedCall (swapCallParameters : UniswapTrade → TradeOptions → SwapParameters)
    (trade : UniswapTrade) (ttl : Nat) (walletAddress : String)
    (slippage : UniswapPercent) (defiraRouter abi : String)
    (gasPrice gasLimit nonce : Nat) (maxFeePerGas? maxPriorityFeePerGas? : Option Nat) :
    ContractCall :=
  let result := swapCallParameters trade ⟨ttl, walletAddress, slippage⟩
  ⟨defiraRouter, abi, result.methodName, result.args,
    buildTxOverrides gasPrice gasLimit result.value nonce
      maxFeePerGas? maxPriorityFeePerGas?⟩

/-- The nonce-manager interaction of `executeTrade`'s lines 321-323: when
the caller supplied no nonce, one `getNonce` request is made for the
wallet's address; otherwise the nonce manager is not consulted. -/
def acquiredEffects (walletAddress : String) : Option Nat → List Effect
  | some _ => []
  | none => [.getNonce walletAddress]

/-- The commit step of `executeTrade`'s line 343 as a trace: a failed
contract call throws out of the function before the commit line, so only a
successful submission produces the `commitNonce` interaction. -/
def commitTail {τ : Type} (walletAddress : String) (nonce : Nat) :
    Except String τ → List Effect
  | .error _ => []
  | .ok _ => [.commitNonce walletAddress nonce]

/-- `Defira.executeTrade` (defira.ts lines 301-345).  External inputs:
`swapCallParameters` (router call-parameter builder), `getNonceResult`
(what `nonceManager.getNonce(wallet.address)` would return), and `submit`
(the outcome of the dynamic contract call; `τ` is the transaction type).
The steps, in source order: resolve slippage (line 317, may throw), take
the caller's nonce or acquire one (lines 321-323), submit with the chosen
fee strategy (lines 325-340), and commit the used nonce only after the
submission returned (line 343).  The returned trace lists the nonce-manager
and contract interactions in order. -/
def executeTrade {τ : Type}
    (swapCallParameters : UniswapTrade → TradeOptions → SwapParameters)
    (getNonceResult : Nat)
    (submit : ContractCall → Except String τ)
    (config : String)
    (walletAddress : String)
    (trade : UniswapTrade)
    (gasPrice : Nat)
    (defiraRouter : String)
    (ttl : Nat)
    (abi : String)
    (gasLimit : Nat)
    (nonce? : Option Nat)
    (maxFeePerGas? : Option Nat)
    (maxPriorityFeePerGas? : Option Nat)
    (allowedSlippage? : Option String) :
    Except GatewayError τ × List Effect :=
  match getAllowedSlippage config allowedSlippage? with
  | .error e => (.error e, [])
  | .ok slippage =>
    let nonce : Nat := nonce?.getD getNonceResult
    let acquired : List Effect := acquiredEffects walletAddress nonce?
    let call : ContractCall :=
      plannedCall swapCallParameters trade ttl walletAddress slippage
        defiraRouter abi gasPrice gasLimit nonce maxFeePerGas? maxPriorityFeePerGas?
    ((match submit call with
      | .error e => .error (.contractError e)
      | .ok tx => .ok tx),
     acquired ++ [.submitCall call] ++ commitTail walletAddress nonce (submit call))

/-- The addresses for which a trace acquired a nonce from the manager. -/
def acquireEvents (trace : List Effect) : List String :=
  trace.filterMap fun e =>
    match e with
    | .getNonce a => some a
    | _ => none

/-- The `(address, nonce)` pairs a trace committed back to the manager. -/
def commitEvents (trace : List Effect) : List (String × Nat) :=
  trace.filterMap fun e =>
    match e with
    | .commitNonce a n => some (a, n)
    | _ => none

/-- The contract calls a trace submitted. -/
def submittedCalls (trace : List Effect) : List ContractCall :=
  trace.filterMap fun e =>
    match e with
    | .submitCall c => some c
    | _ => none

/-! ## The instance registry -/

/-- A connector instance as the registry sees it.  `id` is a creation
counter standing in for JavaScript reference identity: two instances are
the same object exactly when their ids coincide. -/
structure DefiraInstance : Type where
  id : Nat
  chain : String
  network : String
deriving DecidableEq, Repr

/-- The static `Defira._instances` map plus the creation counter that
models object identity.  The map is a function from key strings, mirroring
a JavaScript object. -/
structure Registry : Type where
  map : String → Option DefiraInstance
  counter : Nat

/-- The registry before any `getInstance` call. -/
def Registry.initial : Registry :=
  ⟨fun _ => none, 0⟩

/-- `Defira.getInstance` (defira.ts lines 81-90): key the map by
`chain + network`; create an instance on first request and return the
cached one thereafter.  Nothing is ever removed. -/
def Defira.getInstance (chain network : String) (s : Registry) :
    DefiraInstance × Registry :=
  let key := chain ++ network
  match s.map key with
  | some inst => (inst, s)
  | none =>
    let inst : DefiraInstance := ⟨s.counter, chain, network⟩
    (inst, ⟨fun k => if k = key then some inst else s.map k, s.counter + 1⟩)

/-- Well-formedness of a registry state: every cached instance was created
earlier than the counter, and distinct keys hold distinct objects.  It
holds for `Registry.initial` and is preserved by `getInstance`. -/
def Registry.WF (s : Registry) : Prop :=
  (∀ k i, s.map k = some i → i.id < s.counter) ∧
  (∀ k₁ k₂ i₁ i₂, s.map k₁ = some i₁ → s.map k₂ = some i₂ → i₁.id = i₂.id → k₁ = k₂)

/-! ## C3 / C4: slippage resolution -/

/-- C3: for every override string of the form `"N/D"` that is a valid
fraction string (with D ≠ 0), `getAllowedSlippage` returns the tolerance
N/D exactly, independent of the configured default slippage value (the
configured string is universally quantified and unused). -/
theorem getAllowedSlippage_fraction_override (config : String) (n d : List Char)
    (hn : isIntegerString n = true) (hd : isIntegerString d = true)
    (_hd0 : parseNatL d ≠ 0) :
    getAllowedSlippage config (some ⟨n ++ '/' :: d⟩) =
      .ok ⟨parseNatL n, parseNatL d⟩ := by
  have hnd : '/' ∉ n :=
    not_slash_of_all_digit ((Bool.and_eq_true _ _).mp hn).2
  have hdd : '/' ∉ d :=
    not_slash_of_all_digit ((Bool.and_eq_true _ _).mp hd).2
  have hsplit : splitOnChar '/' (n ++ '/' :: d) = [n, d] := by
    rw [splitOnChar_append hnd, splitOnChar_of_not_mem hdd]
  have hf : isFractionString ⟨n ++ '/' :: d⟩ = true := by
    unfold isFractionString
    show (match splitOnChar '/' (n ++ '/' :: d) with
      | [a, b] => isIntegerString a && isIntegerString b
      | _ => false) = true
    rw [hsplit]
    show (isIntegerString n && isIntegerString d) = true
    rw [hn, hd]
    exact rfl
  show (if isFractionString ⟨n ++ '/' :: d⟩ then
      let fractionSplit := splitOnChar '/' (String.mk (n ++ '/' :: d)).data
      Except.ok (⟨parseNatL (fractionSplit.getD 0 []), parseNatL (fractionSplit.getD 1 [])⟩ :
        UniswapPercent)
    else defaultAllowedSlippage config) = .ok ⟨parseNatL n, parseNatL d⟩
  rw [if_pos (by exact_mod_cast hf)]
  show Except.ok (⟨parseNatL ((splitOnChar '/' (n ++ '/' :: d)).getD 0 []),
    parseNatL ((splitOnChar '/' (n ++ '/' :: d)).getD 1 [])⟩ : UniswapPercent) = _
  rw [hsplit]
  exact rfl

theorem getAllowedSlippage_fraction_override_witness :
    isIntegerString ['2'] = true ∧ isIntegerString ['1', '0', '0'] = true ∧
    parseNatL ['1', '0', '0'] ≠ 0 ∧
    getAllowedSlippage "garbage" (some ⟨['2'] ++ '/' :: ['1', '0', '0']⟩) =
      .ok ⟨parseNatL ['2'], parseNatL ['1', '0', '0']⟩ :=
  ⟨by decide, by decide, by decide,
    getAllowedSlippage_fraction_override "garbage" ['2'] ['1', '0', '0']
      (by decide) (by decide) (by decide)⟩

/-- C4: for every configured default slippage string that does not match the
percent pattern, `getAllowedSlippage` called with no override — or with an
override that is not a valid fraction string — throws the fixed
malformed-configuration error and returns no fallback tolerance. -/
theorem getAllowedSlippage_malformed_config (config s : String)
    (hconf : percentMatch config = none) (hs : isFractionString s = false) :
    getAllowedSlippage config none =
      .error (.malformedConfigError
        "Encountered a malformed percent string in the config for ALLOWED_SLIPPAGE.") ∧
    getAllowedSlippage config (some s) =
      .error (.malformedConfigError
        "Encountered a malformed percent string in the config for ALLOWED_SLIPPAGE.") := by
  have hdef : defaultAllowedSlippage config =
      .error (.malformedConfigError
        "Encountered a malformed percent string in the config for ALLOWED_SLIPPAGE.") := by
    unfold defaultAllowedSlippage
    rw [hconf]
  refine ⟨hdef, ?_⟩
  show (if isFractionString s then
      let fractionSplit := splitOnChar '/' s.data
      Except.ok (⟨parseNatL (fractionSplit.getD 0 []), parseNatL (fractionSplit.getD 1 [])⟩ :
        UniswapPercent)
    else defaultAllowedSlippage config) = _
  rw [if_neg (by rw [hs]; exact Bool.false_ne_true), hdef]

theorem getAllowedSlippage_malformed_config_witness :
    percentMatch "garbage" = none ∧ isFractionString "abc" = false ∧
    (getAllowedSlippage "garbage" none =
      .error (.malformedConfigError
        "Encountered a malformed percent string in the config for ALLOWED_SLIPPAGE.") ∧
     getAllowedSlippage "garbage" (some "abc") =
      .error (.malformedConfigError
        "Encountered a malformed percent string in the config for ALLOWED_SLIPPAGE.")) :=
  ⟨by decide, by decide,
    getAllowedSlippage_malformed_config "garbage" "abc" (by decide) (by decide)⟩

/-! ## C6 / C9: initialization and token lookup -/

theorem lookup_eq_none_of_forall_ne {l : List (String × UniswapToken)}
    {a : String} (h : ∀ p ∈ l, p.1 ≠ a) : l.lookup a = none := by
  induction l with
  | nil => rfl
  | cons p t ih =>
    cases p with
    | mk k v =>
      have hp : (a == k) = false :=
        beq_eq_false_iff_ne.mpr fun he => (h (k, v) (List.mem_cons_self _ t)) he.symm
      have ht : ∀ q ∈ t, q.1 ≠ a := fun q hq => h q (List.mem_cons_of_mem _ hq)
      show List.lookup a ((k, v) :: t) = none
      simp only [List.lookup]
      rw [hp]
      exact ih ht

/-- A concrete configuration used by the witnesses below. -/
def exCfg : DefiraConfig :=
  { ttl := 300, gasLimit := 150000, allowedSlippage := "2.5%",
    routerAddress := fun _ => "0xRouter" }

/-- A freshly constructed harmony-chain instance, for witnesses. -/
def exHarmonyState : DefiraState :=
  Defira.construct "harmony" "testnet" exCfg 1

/-- `exHarmonyState` after a successful `init` with an empty stored token
list. -/
def exReadyState : DefiraState :=
  { exHarmonyState with tokenList := [], ready := true }

/-- C6 (amended): for every connector instance whose chain is `"harmony"`,
if the underlying chain client does not report itself ready, `init` throws
the `InitializationError` with the fixed "service unitialized" code (and,
throwing before the token loop, populates nothing); a freshly constructed
instance has `ready() = false`; and any `init` call that completes
successfully leaves `ready() = true`. -/
theorem init_ready_lifecycle (chain network : String) (cfg : DefiraConfig)
    (cid : Nat) (s t u : DefiraState) (tokens ts : List TokenInfo) (r : Bool)
    (h1 : s.chain = "harmony") (h2 : Defira.init r ts t = .ok u) :
    Defira.init false tokens s =
      .error (.initializationError (SERVICE_UNITIALIZED_ERROR_MESSAGE "HMY")
        SERVICE_UNITIALIZED_ERROR_CODE) ∧
    (Defira.construct chain network cfg cid).ready = false ∧
    u.ready = true := by
  refine ⟨?_, rfl, ?_⟩
  · unfold Defira.init
    rw [h1]
    simp
  · unfold Defira.init at h2
    split at h2
    · cases h2
    · cases h2
      rfl

theorem init_ready_lifecycle_witness :
    exHarmonyState.chain = "harmony" ∧
    Defira.init true [] exHarmonyState = .ok exReadyState ∧
    (Defira.init false [] exHarmonyState =
        .error (.initializationError (SERVICE_UNITIALIZED_ERROR_MESSAGE "HMY")
          SERVICE_UNITIALIZED_ERROR_CODE) ∧
      (Defira.construct "harmony" "mainnet" exCfg 1).ready = false ∧
      exReadyState.ready = true) :=
  ⟨rfl, rfl,
    init_ready_lifecycle "harmony" "mainnet" exCfg 1 exHarmonyState exHarmonyState
      exReadyState [] [] true rfl rfl⟩

/-- An instance on a chain other than `"harmony"`, for the C6
counterexample. -/
def exEthState : DefiraState :=
  Defira.construct "ethereum" "mainnet" exCfg 1

/-- `exEthState` after `init` ran with a chain client that is NOT ready. -/
def exEthReadyState : DefiraState :=
  { exEthState with tokenList := [], ready := true }

/-- C6 counterexample: the readiness check is guarded by
`this._chain == 'harmony'` (defira.ts line 103), so for an instance
constructed with chain `"ethereum"` and a chain client that reports itself
NOT ready, `init` does not throw: it succeeds and flips `ready()` to true,
contradicting the claim as stated. -/
theorem init_skips_ready_check_counterexample :
    Defira.init false [] exEthState = .ok exEthReadyState ∧
    exEthReadyState.ready = true :=
  ⟨rfl, rfl⟩

/-- A state whose token list holds exactly one token, for the C9 witness. -/
def exTokState : DefiraState :=
  { exHarmonyState with
    tokenList := [("0xAAA", ⟨1, "0xAAA", 18, "WONE", "Wrapped ONE"⟩)] }

/-- C9: for every address not present in the connector's token list —
including any address on a freshly constructed instance, whose token list
is empty before `init` has run — `getTokenByAddress` returns `undefined`
(`none`) rather than raising an error: it is a total, plain lookup with no
failure branch. -/
theorem getTokenByAddress_missing (chain network : String) (cfg : DefiraConfig)
    (cid : Nat) (s : DefiraState) (address : String)
    (h : ∀ p ∈ s.tokenList, p.1 ≠ address) :
    getTokenByAddress s address = none ∧
    getTokenByAddress (Defira.construct chain network cfg cid) address = none :=
  ⟨lookup_eq_none_of_forall_ne h, rfl⟩

theorem getTokenByAddress_missing_witness :
    (∀ p ∈ exTokState.tokenList, p.1 ≠ "0xBBB") ∧
    (getTokenByAddress exTokState "0xBBB" = none ∧
     getTokenByAddress (Defira.construct "harmony" "mainnet" exCfg 1) "0xBBB" = none) :=
  ⟨by decide,
    getTokenByAddress_missing "harmony" "mainnet" exCfg 1 exTokState "0xBBB" (by decide)⟩

/-! ## C5 / C7: trade estimation -/

/-- C5 (amended): whenever the best-trade search returns an empty trade
list, both estimate methods throw a `UniswapishPriceError` and construct no
`ExpectedTrade`.  `estimateBuyTrade`'s message names the two token
addresses (the address strings occur in it); `estimateSellTrade`'s message
instead interpolates the token objects themselves, which render as their
default object string, not their addresses. -/
theorem estimate_empty_trades_price_error
    (fetchPairData : UniswapToken → UniswapToken → UniswapPair)
    (bestIn : List UniswapPair → UniswapTokenAmount → UniswapToken → Nat → List UniswapTrade)
    (bestOut : List UniswapPair → UniswapToken → UniswapTokenAmount → Nat → List UniswapTrade)
    (config : String) (baseToken quoteToken : UniswapToken) (amount : Nat)
    (s? : Option String)
    (hIn : bestIn [fetchPairData quoteToken baseToken] ⟨baseToken, amount⟩ quoteToken 1 = [])
    (hOut : bestOut [fetchPairData quoteToken baseToken] quoteToken ⟨baseToken, amount⟩ 1 = []) :
    estimateSellTrade fetchPairData bestIn config baseToken quoteToken amount s? =
      .error (.uniswapishPriceError
        ("priceSwapIn: no trade pair found for " ++ tokenToString baseToken
          ++ " to " ++ tokenToString quoteToken ++ ".")) ∧
    estimateBuyTrade fetchPairData bestOut config quoteToken baseToken amount s? =
      .error (.uniswapishPriceError
        ("priceSwapOut: no trade pair found for " ++ quoteToken.address
          ++ " to " ++ baseToken.address ++ ".")) ∧
    quoteToken.address.data <:+:
      ("priceSwapOut: no trade pair found for " ++ quoteToken.address
        ++ " to " ++ baseToken.address ++ ".").data ∧
    baseToken.address.data <:+:
      ("priceSwapOut: no trade pair found for " ++ quoteToken.address
        ++ " to " ++ baseToken.address ++ ".").data := by
  refine ⟨?_, ?_, ?_, ?_⟩
  · simp only [estimateSellTrade]
    rw [hIn]
  · simp only [estimateBuyTrade]
    rw [hOut]
  · refine ⟨"priceSwapOut: no trade pair found for ".data,
      (" to " ++ baseToken.address ++ ".").data, ?_⟩
    simp [String.data_append, List.append_assoc]
  · refine ⟨("priceSwapOut: no trade pair found for " ++ quoteToken.address
      ++ " to ").data, ".".data, ?_⟩
    simp [String.data_append, List.append_assoc]

/-- The concrete base token used by estimation witnesses. -/
def exBase : UniswapToken := ⟨1, "0xBASE", 18, "WONE", "Wrapped ONE"⟩

/-- The concrete quote token used by estimation witnesses. -/
def exQuote : UniswapToken := ⟨1, "0xQUOTE", 6, "USDC", "USD Coin"⟩

/-- A concrete fetched pair. -/
def exPair : UniswapPair := ⟨exQuote, exBase, 1000, 1000⟩

/-- A pair fetcher always returning `exPair`. -/
def exFetch : UniswapToken → UniswapToken → UniswapPair := fun _ _ => exPair

/-- An exact-in best-trade search that finds nothing. -/
def emptyBestIn :
    List UniswapPair → UniswapTokenAmount → UniswapToken → Nat → List UniswapTrade :=
  fun _ _ _ _ => []

/-- An exact-out best-trade search that finds nothing. -/
def emptyBestOut :
    List UniswapPair → UniswapToken → UniswapTokenAmount → Nat → List UniswapTrade :=
  fun _ _ _ _ => []

theorem estimate_empty_trades_price_error_witness :
    emptyBestIn [exFetch exQuote exBase] ⟨exBase, 5⟩ exQuote 1 = [] ∧
    emptyBestOut [exFetch exQuote exBase] exQuote ⟨exBase, 5⟩ 1 = [] ∧
    (estimateSellTrade exFetch emptyBestIn "2.5%" exBase exQuote 5 none =
      .error (.uniswapishPriceError
        ("priceSwapIn: no trade pair found for " ++ tokenToString exBase
          ++ " to " ++ tokenToString exQuote ++ ".")) ∧
     estimateBuyTrade exFetch emptyBestOut "2.5%" exQuote exBase 5 none =
      .error (.uniswapishPriceError
        ("priceSwapOut: no trade pair found for " ++ exQuote.address
          ++ " to " ++ exBase.address ++ ".")) ∧
     exQuote.address.data <:+:
      ("priceSwapOut: no trade pair found for " ++ exQuote.address
        ++ " to " ++ exBase.address ++ ".").data ∧
     exBase.address.data <:+:
      ("priceSwapOut: no trade pair found for " ++ exQuote.address
        ++ " to " ++ exBase.address ++ ".").data) :=
  ⟨rfl, rfl,
    estimate_empty_trades_price_error exFetch emptyBestIn emptyBestOut
      "2.5%" exBase exQuote 5 none rfl rfl⟩

set_option maxRecDepth 8000 in
/-- C5 counterexample: at concrete tokens with addresses `"0xBASE"` and
`"0xQUOTE"` and an empty trade search, `estimateSellTrade`'s error message
is the fixed object-interpolated string, and the base token's address does
NOT occur in it — refuting the claim that both estimate methods name the
two token addresses in their `PriceError` message. -/
theorem estimateSellTrade_message_counterexample :
    estimateSellTrade exFetch emptyBestIn "2.5%" exBase exQuote 5 none =
      .error (.uniswapishPriceError
        "priceSwapIn: no trade pair found for [object Object] to [object Object].") ∧
    ¬("0xBASE".data <:+:
      "priceSwapIn: no trade pair found for [object Object] to [object Object].".data) :=
  ⟨rfl, by decide⟩

/-- C7: on a successful estimate, `estimateSellTrade` searches best
exact-input trades over the single fetched pair with hop limit 1 and
returns `expectedAmount` equal to the first trade's `minimumAmountOut`
under the resolved slippage tolerance; `estimateBuyTrade` symmetrically
uses the best exact-output search with hop limit 1 and returns the first
trade's `maximumAmountIn` under the resolved tolerance. -/
theorem estimate_success_expected_amounts
    (fetchPairData : UniswapToken → UniswapToken → UniswapPair)
    (bestIn : List UniswapPair → UniswapTokenAmount → UniswapToken → Nat → List UniswapTrade)
    (bestOut : List UniswapPair → UniswapToken → UniswapTokenAmount → Nat → List UniswapTrade)
    (config : String) (baseToken quoteToken : UniswapToken) (amount : Nat)
    (s? : Option String) (p : UniswapPercent) (t t' : UniswapTrade)
    (ts ts' : List UniswapTrade)
    (hs : getAllowedSlippage config s? = .ok p)
    (hIn : bestIn [fetchPairData quoteToken baseToken] ⟨baseToken, amount⟩ quoteToken 1
      = t :: ts)
    (hOut : bestOut [fetchPairData quoteToken baseToken] quoteToken ⟨baseToken, amount⟩ 1
      = t' :: ts') :
    estimateSellTrade fetchPairData bestIn config baseToken quoteToken amount s? =
      .ok ⟨t, t.minimumAmountOut p⟩ ∧
    estimateBuyTrade fetchPairData bestOut config quoteToken baseToken amount s? =
      .ok ⟨t', t'.maximumAmountIn p⟩ := by
  constructor
  · simp only [estimateSellTrade]
    rw [hIn]
    show (do
      let slippage ← getAllowedSlippage config s?
      pure ⟨t, t.minimumAmountOut slippage⟩ : Except GatewayError ExpectedTrade) = _
    rw [hs]
    rfl
  · simp only [estimateBuyTrade]
    rw [hOut]
    show (do
      let slippage ← getAllowedSlippage config s?
      pure ⟨t', t'.maximumAmountIn slippage⟩ : Except GatewayError ExpectedTrade) = _
    rw [hs]
    rfl

/-- A concrete trade whose slippage accessors are simple constants. -/
def exTrade : UniswapTrade :=
  { executionPrice := 1
    minimumAmountOut := fun _ => 42
    maximumAmountIn := fun _ => 7 }

/-- An exact-in best-trade search that always finds `exTrade`. -/
def exBestIn :
    List UniswapPair → UniswapTokenAmount → UniswapToken → Nat → List UniswapTrade :=
  fun _ _ _ _ => [exTrade]

/-- An exact-out best-trade search that always finds `exTrade`. -/
def exBestOut :
    List UniswapPair → UniswapToken → UniswapTokenAmount → Nat → List UniswapTrade :=
  fun _ _ _ _ => [exTrade]

theorem estimate_success_expected_amounts_witness :
    getAllowedSlippage "2.5%" none = .ok ⟨2, 5⟩ ∧
    exBestIn [exFetch exQuote exBase] ⟨exBase, 5⟩ exQuote 1 = [exTrade] ∧
    exBestOut [exFetch exQuote exBase] exQuote ⟨exBase, 5⟩ 1 = [exTrade] ∧
    (estimateSellTrade exFetch exBestIn "2.5%" exBase exQuote 5 none =
      .ok ⟨exTrade, exTrade.minimumAmountOut ⟨2, 5⟩⟩ ∧
     estimateBuyTrade exFetch exBestOut "2.5%" exQuote exBase 5 none =
      .ok ⟨exTrade, exTrade.maximumAmountIn ⟨2, 5⟩⟩) :=
  ⟨rfl, rfl, rfl,
    estimate_success_expected_amounts exFetch exBestIn exBestOut "2.5%"
      exBase exQuote 5 none ⟨2, 5⟩ exTrade exTrade [] [] rfl rfl rfl⟩

/-! ## C1 / C2 / C10: trade execution -/

theorem submittedCalls_append (l1 l2 : List Effect) :
    submittedCalls (l1 ++ l2) = submittedCalls l1 ++ submittedCalls l2 := by
  simp [submittedCalls]

theorem submittedCalls_acquired (a : String) (o : Option Nat) :
    submittedCalls (acquiredEffects a o) = [] := by
  cases o <;> rfl

theorem submittedCalls_commitTail {τ : Type} (a : String) (n : Nat)
    (o : Except String τ) : submittedCalls (commitTail a n o) = [] := by
  cases o <;> rfl

theorem submittedCalls_submit (c : ContractCall) :
    submittedCalls [Effect.submitCall c] = [c] := rfl

theorem commitEvents_append (l1 l2 : List Effect) :
    commitEvents (l1 ++ l2) = commitEvents l1 ++ commitEvents l2 := by
  simp [commitEvents]

theorem commitEvents_acquired (a : String) (o : Option Nat) :
    commitEvents (acquiredEffects a o) = [] := by
  cases o <;> rfl

theorem commitEvents_submit (c : ContractCall) :
    commitEvents [Effect.submitCall c] = [] := rfl

theorem acquireEvents_append (l1 l2 : List Effect) :
    acquireEvents (l1 ++ l2) = acquireEvents l1 ++ acquireEvents l2 := by
  simp [acquireEvents]

theorem acquireEvents_commitTail {τ : Type} (a : String) (n : Nat)
    (o : Except String τ) : acquireEvents (commitTail a n o) = [] := by
  cases o <;> rfl

theorem acquireEvents_submit (c : ContractCall) :
    acquireEvents [Effect.submitCall c] = [] := rfl

/-- C2: for every call to `executeTrade` that reaches submission, the
submitted transaction uses exactly one of the two fee strategies: with both
fee-per-gas arguments absent the options carry
`gasPrice = (gasPrice * 1e9)` rendered as an integer string and no
fee-per-gas fields; with either fee-per-gas argument present the options
carry both fee fields as given and no `gasPrice` field.  A call that fails
slippage resolution submits nothing. -/
theorem executeTrade_fee_strategy {τ : Type}
    (swapCallParameters : UniswapTrade → TradeOptions → SwapParameters)
    (getNonceResult : Nat) (submit : ContractCall → Except String τ)
    (config walletAddress : String) (trade : UniswapTrade)
    (gasPrice : Nat) (defiraRouter : String) (ttl : Nat) (abi : String)
    (gasLimit : Nat) (nonce? : Option Nat) (mf mp : Option Nat)
    (s? : Option String) :
    submittedCalls (executeTrade swapCallParameters getNonceResult submit config
      walletAddress trade gasPrice defiraRouter ttl abi gasLimit nonce? mf mp s?).2 =
      match getAllowedSlippage config s? with
      | .error _ => []
      | .ok p =>
        [⟨defiraRouter, abi,
          (swapCallParameters trade ⟨ttl, walletAddress, p⟩).methodName,
          (swapCallParameters trade ⟨ttl, walletAddress, p⟩).args,
          match mf, mp with
          | none, none =>
            { gasPrice := some (toString (gasPrice * 1000000000))
              gasLimit := toString gasLimit
              value := (swapCallParameters trade ⟨ttl, walletAddress, p⟩).value
              nonce := nonce?.getD getNonceResult
              maxFeePerGas := none
              maxPriorityFeePerGas := none }
          | _, _ =>
            { gasPrice := none
              gasLimit := toString gasLimit
              value := (swapCallParameters trade ⟨ttl, walletAddress, p⟩).value
              nonce := nonce?.getD getNonceResult
              maxFeePerGas := mf
              maxPriorityFeePerGas := mp }⟩] := by
  simp only [executeTrade]
  cases hga : getAllowedSlippage config s? with
  | error e => rfl
  | ok p =>
    rw [submittedCalls_append, submittedCalls_append, submittedCalls_acquired,
      submittedCalls_commitTail, submittedCalls_submit]
    simp only [List.nil_append, List.append_nil]
    cases mf <;> cases mp <;> simp [plannedCall, buildTxOverrides]

/-- C1 (amended): for every `executeTrade` call without a caller-supplied
nonce that passes slippage resolution, exactly one nonce is acquired for
the wallet's address, the submission is attempted exactly once, and exactly
the acquired nonce is committed exactly once, strictly after the
submission and only when it succeeded; a failed submission commits nothing,
leaving the committed-nonce watermark untouched.  A call that fails
slippage resolution throws before the nonce step: it acquires and commits
nothing. -/
theorem executeTrade_nonce_lifecycle {τ : Type}
    (swapCallParameters : UniswapTrade → TradeOptions → SwapParameters)
    (getNonceResult : Nat) (submit : ContractCall → Except String τ)
    (config walletAddress : String) (trade : UniswapTrade)
    (gasPrice : Nat) (defiraRouter : String) (ttl : Nat) (abi : String)
    (gasLimit : Nat) (mf mp : Option Nat) (s? : Option String) :
    (executeTrade swapCallParameters getNonceResult submit config walletAddress
        trade gasPrice defiraRouter ttl abi gasLimit none mf mp s?).2 =
      (match getAllowedSlippage config s? with
       | .error _ => []
       | .ok p =>
         [Effect.getNonce walletAddress,
          Effect.submitCall (plannedCall swapCallParameters trade ttl walletAddress p
            defiraRouter abi gasPrice gasLimit getNonceResult mf mp)] ++
           commitTail walletAddress getNonceResult
             (submit (plannedCall swapCallParameters trade ttl walletAddress p
               defiraRouter abi gasPrice gasLimit getNonceResult mf mp))) ∧
    acquireEvents (executeTrade swapCallParameters getNonceResult submit config
        walletAddress trade gasPrice defiraRouter ttl abi gasLimit none mf mp s?).2 =
      (match getAllowedSlippage config s? with
       | .error _ => []
       | .ok _ => [walletAddress]) ∧
    commitEvents (executeTrade swapCallParameters getNonceResult submit config
        walletAddress trade gasPrice defiraRouter ttl abi gasLimit none mf mp s?).2 =
      (match getAllowedSlippage config s? with
       | .error _ => []
       | .ok p =>
         match submit (plannedCall swapCallParameters trade ttl walletAddress p
             defiraRouter abi gasPrice gasLimit getNonceResult mf mp) with
         | .error _ => []
         | .ok _ => [(walletAddress, getNonceResult)]) := by
  refine ⟨?_, ?_, ?_⟩
  · simp only [executeTrade, Option.getD_none]
    cases hga : getAllowedSlippage config s? with
    | error e => rfl
    | ok p => rfl
  · simp only [executeTrade, Option.getD_none]
    cases hga : getAllowedSlippage config s? with
    | error e => rfl
    | ok p =>
      rw [acquireEvents_append, acquireEvents_append, acquireEvents_commitTail,
        acquireEvents_submit]
      simp [acquireEvents, acquiredEffects]
  · simp only [executeTrade, Option.getD_none]
    cases hga : getAllowedSlippage config s? with
    | error e => rfl
    | ok p =>
      rw [commitEvents_append, commitEvents_append, commitEvents_acquired,
        commitEvents_submit]
      simp only [List.nil_append, List.append_nil]
      cases hsub : submit (plannedCall swapCallParameters trade ttl walletAddress p
          defiraRouter abi gasPrice gasLimit getNonceResult mf mp) <;> rfl

/-- The call-parameter builder used by the execution witnesses. -/
def exSwap : UniswapTrade → TradeOptions → SwapParameters :=
  fun _ _ => ⟨"swapExactTokensForTokens", ["1", "2"], "0"⟩

/-- A contract-call surface whose submission always succeeds. -/
def exSubmit : ContractCall → Except String Nat :=
  fun _ => .ok 0

/-- C1 counterexample: a concrete `executeTrade` call with no
caller-supplied nonce whose configured slippage string is malformed (and no
override is given) throws before the nonce step, so NO nonce is acquired —
refuting the claim that every such call acquires exactly one nonce. -/
theorem executeTrade_config_error_counterexample :
    executeTrade exSwap 7 exSubmit "garbage" "0xWALLET" exTrade 3 "0xRouter"
        300 "abi" 21000 none none none none =
      (.error (.malformedConfigError
        "Encountered a malformed percent string in the config for ALLOWED_SLIPPAGE."),
       []) ∧
    acquireEvents (executeTrade exSwap 7 exSubmit "garbage" "0xWALLET" exTrade 3
        "0xRouter" 300 "abi" 21000 none none none none).2 = [] :=
  ⟨rfl, rfl⟩

/-- C10: when the caller supplies an explicit nonce, the nonce manager is
never asked for one, yet after a successful submission the caller-supplied
nonce is still committed — the commit step runs on success regardless of
whether the nonce was acquired or supplied.  (A call that fails slippage
resolution submits and commits nothing.) -/
theorem executeTrade_explicit_nonce_commit {τ : Type}
    (swapCallParameters : UniswapTrade → TradeOptions → SwapParameters)
    (getNonceResult : Nat) (submit : ContractCall → Except String τ)
    (config walletAddress : String) (trade : UniswapTrade)
    (gasPrice : Nat) (defiraRouter : String) (ttl : Nat) (abi : String)
    (gasLimit : Nat) (n : Nat) (mf mp : Option Nat) (s? : Option String) :
    (executeTrade swapCallParameters getNonceResult submit config walletAddress
        trade gasPrice defiraRouter ttl abi gasLimit (some n) mf mp s?).2 =
      (match getAllowedSlippage config s? with
       | .error _ => []
       | .ok p =>
         [Effect.submitCall (plannedCall swapCallParameters trade ttl walletAddress p
            defiraRouter abi gasPrice gasLimit n mf mp)] ++
           commitTail walletAddress n
             (submit (plannedCall swapCallParameters trade ttl walletAddress p
               defiraRouter abi gasPrice gasLimit n mf mp))) ∧
    acquireEvents (executeTrade swapCallParameters getNonceResult submit config
        walletAddress trade gasPrice defiraRouter ttl abi gasLimit (some n) mf mp
        s?).2 = [] ∧
    commitEvents (executeTrade swapCallParameters getNonceResult submit config
        walletAddress trade gasPrice defiraRouter ttl abi gasLimit (some n) mf mp
        s?).2 =
      (match getAllowedSlippage config s? with
       | .error _ => []
       | .ok p =>
         match submit (plannedCall swapCallParameters trade ttl walletAddress p
             defiraRouter abi gasPrice gasLimit n mf mp) with
         | .error _ => []
         | .ok _ => [(walletAddress, n)]) := by
  refine ⟨?_, ?_, ?_⟩
  · simp only [executeTrade, Option.getD_some]
    cases hga : getAllowedSlippage config s? with
    | error e => rfl
    | ok p => rfl
  · simp only [executeTrade, Option.getD_some]
    cases hga : getAllowedSlippage config s? with
    | error e => rfl
    | ok p =>
      rw [acquireEvents_append, acquireEvents_append, acquireEvents_commitTail,
        acquireEvents_submit]
      simp [acquireEvents, acquiredEffects]
  · simp only [executeTrade, Option.getD_some]
    cases hga : getAllowedSlippage config s? with
    | error e => rfl
    | ok p =>
      rw [commitEvents_append, commitEvents_append, commitEvents_acquired,
        commitEvents_submit]
      simp only [List.nil_append, List.append_nil]
      cases hsub : submit (plannedCall swapCallParameters trade ttl walletAddress p
          defiraRouter abi gasPrice gasLimit n mf mp) <;> rfl

/-! ## C8: the instance registry -/

theorem string_append_right_inj {c n₁ n₂ : String} (h : c ++ n₁ = c ++ n₂) :
    n₁ = n₂ := by
  cases c with
  | mk lc =>
    cases n₁ with
    | mk l₁ =>
      cases n₂ with
      | mk l₂ =>
        have hd : lc ++ l₁ = lc ++ l₂ := congrArg String.data h
        have : l₁ = l₂ := List.append_cancel_left hd
        rw [this]

/-- C8: from any well-formed registry state, `getInstance` called twice
with the same `(chain, network)` arguments returns the identical instance
(object identity, modelled by the creation id), `getInstance` with the same
chain and a different network key returns a distinct instance, and no
existing entry is ever evicted by a `getInstance` call. -/
theorem getInstance_singleton_registry (c n n₂ k : String) (v : DefiraInstance)
    (s : Registry) (hwf : Registry.WF s) (hne : n₂ ≠ n) (hk : s.map k = some v) :
    (Defira.getInstance c n (Defira.getInstance c n s).2).1 =
      (Defira.getInstance c n s).1 ∧
    (Defira.getInstance c n₂ (Defira.getInstance c n s).2).1.id ≠
      (Defira.getInstance c n s).1.id ∧
    (Defira.getInstance c n s).2.map k = some v := by
  obtain ⟨hlt, hinj⟩ := hwf
  have hkey : c ++ n₂ ≠ c ++ n := fun h => hne (string_append_right_inj h)
  cases h1 : s.map (c ++ n) with
  | some i =>
    refine ⟨?_, ?_, ?_⟩
    · simp [Defira.getInstance, h1]
    · cases h2 : s.map (c ++ n₂) with
      | some j =>
        simp only [Defira.getInstance, h1, h2]
        exact fun hid => hkey (hinj _ _ _ _ h2 h1 hid)
      | none =>
        simp only [Defira.getInstance, h1, h2]
        exact fun hid => Nat.ne_of_lt (hlt _ _ h1) hid.symm
    · simp only [Defira.getInstance, h1]
      exact hk
  | none =>
    refine ⟨?_, ?_, ?_⟩
    · simp [Defira.getInstance, h1]
    · cases h2 : s.map (c ++ n₂) with
      | some j =>
        simp only [Defira.getInstance, h1, h2]
        simp only [if_neg hkey, h2]
        exact Nat.ne_of_lt (hlt _ _ h2)
      | none =>
        simp only [Defira.getInstance, h1, h2]
        simp only [if_neg hkey, h2]
        exact Nat.succ_ne_self s.counter
    · have hkne : k ≠ c ++ n := by
        intro he
        rw [he, h1] at hk
        cases hk
      simp only [Defira.getInstance, h1]
      simp only [if_neg hkne]
      exact hk

/-- A concrete registry that already caches one instance, for the C8
witness. -/
def exRegistry : Registry :=
  ⟨fun k => if k = "harmonyother" then some ⟨0, "harmony", "other"⟩ else none, 1⟩

theorem exRegistry_wf : Registry.WF exRegistry := by
  constructor
  · intro k i h
    simp only [exRegistry] at h
    by_cases e : k = "harmonyother"
    · rw [if_pos e] at h
      cases h
      decide
    · rw [if_neg e] at h
      cases h
  · intro k₁ k₂ i₁ i₂ h₁ h₂ _
    simp only [exRegistry] at h₁ h₂
    by_cases e₁ : k₁ = "harmonyother"
    · by_cases e₂ : k₂ = "harmonyother"
      · rw [e₁, e₂]
      · rw [if_neg e₂] at h₂
        cases h₂
    · rw [if_neg e₁] at h₁
      cases h₁

theorem getInstance_singleton_registry_witness :
    Registry.WF exRegistry ∧ ("testnet" : String) ≠ "mainnet" ∧
    exRegistry.map "harmonyother" = some ⟨0, "harmony", "other"⟩ ∧
    ((Defira.getInstance "harmony" "mainnet"
        (Defira.getInstance "harmony" "mainnet" exRegistry).2).1 =
      (Defira.getInstance "harmony" "mainnet" exRegistry).1 ∧
     (Defira.getInstance "harmony" "testnet"
        (Defira.getInstance "harmony" "mainnet" exRegistry).2).1.id ≠
      (Defira.getInstance "harmony" "mainnet" exRegistry).1.id ∧
     (Defira.getInstance "harmony" "mainnet" exRegistry).2.map "harmonyother" =
      some ⟨0, "harmony", "other"⟩) :=
  ⟨exRegistry_wf, by decide, rfl,
    getInstance_singleton_registry "harmony" "mainnet" "testnet" "harmonyother"
      ⟨0, "harmony", "other"⟩ exRegistry exRegistry_wf (by decide) rfl⟩
